import Mathlib

/-!
Verification of the vulkanize repository (a Vulkan-tutorial application).

Shallow embedding of the two core components described in the spec:

* the `VDeleter` scoped-handle wrapper (`src/Vulkanize/main.cpp`, lines 54-151,
  identical in `src/unnamed/part_000`): a wrapper holding an opaque handle
  (`VK_NULL_HANDLE` modelled as `0 : Nat`) plus a bound release function; we
  model each operation as a state transformer that also emits the list of
  values the bound deleter was invoked on;
* the device / queue-family selection and layer-support logic of
  `HelloTriangleApplication` (`src/unnamed/part_000`), together with the
  error-propagation pipeline of `initVulkan` and `main`.
-/

/-! ## Scoped handle (`VDeleter<T>`)

The wrapper state is just the held handle value (`object`), with
`VK_NULL_HANDLE = 0`. Each operation returns the new `object` value together
with the list of arguments passed to the bound `deleter` function, in call
order. -/

/-- `VK_NULL_HANDLE`, the empty sentinel, modelled as `0`. -/
def VK_NULL_HANDLE : Nat := 0

namespace VDeleter

/-- `cleanup()`: `if (object != VK_NULL_HANDLE) { deleter(object); } object = VK_NULL_HANDLE;`
Returns the new `object` value and the deleter-invocation trace. -/
def cleanup (object : Nat) : Nat × List Nat :=
  (VK_NULL_HANDLE, if object ≠ VK_NULL_HANDLE then [object] else [])

/-- `operator=(T rhs)`: `if (rhs != object) { cleanup(); object = rhs; }` -/
def assign (object rhs : Nat) : Nat × List Nat :=
  if rhs ≠ object then
    let c := cleanup object
    (rhs, c.2)
  else
    (object, [])

/-- `replace()`: `cleanup(); return &object;` — after the call the slot holds
the post-`cleanup` value of `object`. -/
def replaceFn (object : Nat) : Nat × List Nat :=
  cleanup object

/-- `~VDeleter()`: `cleanup();` -/
def destroy (object : Nat) : Nat × List Nat :=
  cleanup object

/-- The client-visible operations of the wrapper. -/
inductive VOp where
  | assign (v : Nat)
  | replaceOp
  | destroyOp
deriving DecidableEq

/-- One operation step on the wrapper state. -/
def step (object : Nat) : VOp → Nat × List Nat
  | .assign v => assign object v
  | .replaceOp => replaceFn object
  | .destroyOp => destroy object

/-- Run a sequence of operations, accumulating the deleter-invocation trace. -/
def runOps (object : Nat) : List VOp → Nat × List Nat
  | [] => (object, [])
  | op :: rest =>
    let r := step object op
    let r' := runOps r.1 rest
    (r'.1, r.2 ++ r'.2)

/-- Number of `assign v` operations in an operation list, for a fixed `v`. -/
def countAssign (v : Nat) : List VOp → Nat
  | [] => 0
  | .assign w :: rest => (if w = v then 1 else 0) + countAssign v rest
  | _ :: rest => countAssign v rest

end VDeleter

/-! ## Queue-family selection (`src/unnamed/part_000`) -/

/-- `VK_QUEUE_GRAPHICS_BIT = 0x00000001`. -/
def VK_QUEUE_GRAPHICS_BIT : Nat := 1

/-- `VK_QUEUE_COMPUTE_BIT = 0x00000002`. -/
def VK_QUEUE_COMPUTE_BIT : Nat := 2

/-- The fields of `VkQueueFamilyProperties` that `findQueueFamilies` reads. -/
structure VkQueueFamilyProperties where
  queueCount : Nat
  queueFlags : Nat
deriving DecidableEq

/-- `struct QueueFamilyIndices { int graphicsFamily = -1; ... }` -/
structure QueueFamilyIndices where
  graphicsFamily : Int := -1
deriving DecidableEq

/-- `bool isComplete() { return graphicsFamily >= 0; }` -/
def QueueFamilyIndices.isComplete (q : QueueFamilyIndices) : Bool :=
  q.graphicsFamily ≥ 0

/-- The loop body condition of `findQueueFamilies`:
`queueFamily.queueCount > 0 && queueFamily.queueFlags & VK_QUEUE_GRAPHICS_BIT`. -/
def queueFamilyQualifies (qf : VkQueueFamilyProperties) : Prop :=
  0 < qf.queueCount ∧ Nat.land qf.queueFlags VK_QUEUE_GRAPHICS_BIT ≠ 0

instance (qf : VkQueueFamilyProperties) : Decidable (queueFamilyQualifies qf) := by
  unfold queueFamilyQualifies; infer_instance

/-- The scan loop of `findQueueFamilies`: `int i = 0; for (... queueFamily : queueFamilies) {
if (cond) indices.graphicsFamily = i; if (indices.isComplete()) break; i++; }`. -/
def findQueueFamiliesLoop (indices : QueueFamilyIndices) (i : Int) :
    List VkQueueFamilyProperties → QueueFamilyIndices
  | [] => indices
  | qf :: rest =>
    let indices' :=
      if queueFamilyQualifies qf then { indices with graphicsFamily := i } else indices
    if indices'.isComplete then indices' else findQueueFamiliesLoop indices' (i + 1) rest

/-- `QueueFamilyIndices findQueueFamilies(VkPhysicalDevice device)`, as a function of the
queue-family descriptor list returned by `vkGetPhysicalDeviceQueueFamilyProperties`. -/
def findQueueFamilies (queueFamilies : List VkQueueFamilyProperties) : QueueFamilyIndices :=
  findQueueFamiliesLoop {} 0 queueFamilies

/-- `bool isDeviceSuitable(VkPhysicalDevice device)`, as a function of the device's
queue-family descriptor list: `QueueFamilyIndices indices = findQueueFamilies(device);
return indices.isComplete();`. -/
def isDeviceSuitable (queueFamilies : List VkQueueFamilyProperties) : Bool :=
  (findQueueFamilies queueFamilies).isComplete

/-! ## Physical-device selection (`pickPhysicalDevice`)

Physical-device handles are modelled as `Nat` (with `VK_NULL_HANDLE = 0`); the
external query `vkGetPhysicalDeviceQueueFamilyProperties` is an oracle
`qfOf : Nat → List VkQueueFamilyProperties` giving each device's queue-family
descriptor list. -/

/-- The scan loop of `pickPhysicalDevice`:
`for (device : devices) { if (isDeviceSuitable(device)) { physicalDevice = device; break; } }`,
started with `physicalDevice = pd`. Returns the final `physicalDevice` value
together with the list of devices on which `isDeviceSuitable` was evaluated. -/
def pickScan (qfOf : Nat → List VkQueueFamilyProperties) :
    List Nat → Nat → Nat × List Nat
  | [], pd => (pd, [])
  | d :: rest, pd =>
    if isDeviceSuitable (qfOf d) then (d, [d])
    else
      let r := pickScan qfOf rest pd
      (r.1, d :: r.2)

/-- `void pickPhysicalDevice()`, as a function of the enumerated device list and the
queue-family oracle; `throw` is modelled as `Except.error` carrying the message. -/
def pickPhysicalDevice (qfOf : Nat → List VkQueueFamilyProperties)
    (devices : List Nat) : Except String Nat :=
  if devices.length = 0 then
    .error "failed to find GPUs with Vilkan support!"
  else
    let physicalDevice := (pickScan qfOf devices VK_NULL_HANDLE).1
    if physicalDevice = VK_NULL_HANDLE then
      .error "no Vulkan supporting GPU can do what you need!"
    else
      .ok physicalDevice

/-- The devices on which `pickPhysicalDevice` evaluates `isDeviceSuitable` (the loop is
only reached when the enumeration is non-empty). -/
def pickEvaluated (qfOf : Nat → List VkQueueFamilyProperties)
    (devices : List Nat) : List Nat :=
  if devices.length = 0 then [] else (pickScan qfOf devices VK_NULL_HANDLE).2

/-! ## Validation-layer support check -/

/-- `const std::vector<const char*> validationLayers = { "VK_LAYER_LUNARG_standard_validation" };` -/
def validationLayers : List String := ["VK_LAYER_LUNARG_standard_validation"]

/-- `enableValidationLayers` in the non-`NDEBUG` build of the sources. -/
def enableValidationLayers : Bool := true

/-- The inner loop of `checkValidationLayerSupport`:
`for (layerProperties : availableLayers) { if (strcmp(layerName, layerProperties.layerName) == 0)
{ layerFound = true; break; } }`. -/
def layerFoundIn (layerName : String) : List String → Bool
  | [] => false
  | layerProperties :: rest =>
    if layerName = layerProperties then true else layerFoundIn layerName rest

/-- `bool checkValidationLayerSupport()`, as a function of the required layer-name list
(`validationLayers` in the source) and the enumerated available layer names:
`for (layerName : validationLayers) { ... if (!layerFound) return false; } return true;`. -/
def checkValidationLayerSupport (required availableLayers : List String) : Bool :=
  match required with
  | [] => true
  | layerName :: rest =>
    if !(layerFoundIn layerName availableLayers) then false
    else checkValidationLayerSupport rest availableLayers

/-! ## Debug callback -/

/-- `VK_FALSE = 0`. -/
def VK_FALSE : Nat := 0

/-- `static VkBool32 debugCallback(flags, objType, obj, location, code, layerPrefix, msg,
userData)`: writes `"validation layer: " << msg` to `stderr` and `return VK_FALSE;`.
Modelled as the pair (line written to stderr, returned `VkBool32`). -/
def debugCallback (flags objType obj location code : Nat)
    (layerPref msg : String) (userData : Nat) : String × Nat :=
  ("validation layer: " ++ msg, VK_FALSE)

/-! ## Error-propagation pipeline (`initVulkan` and `main`)

The external API's outcomes are an oracle record `World`; each `initVulkan`
stage is its source control flow with `throw std::runtime_error(msg)` modelled
as `Except.error msg`. -/

/-- `EXIT_SUCCESS`. -/
def EXIT_SUCCESS : Nat := 0

/-- `EXIT_FAILURE` (any non-zero status; `1` on the platforms at hand). -/
def EXIT_FAILURE : Nat := 1

/-- Outcomes of the opaque external API calls the pipeline makes. -/
structure World where
  availableLayers : List String
  instanceCreateOk : Bool
  debugCallbackCreateOk : Bool
  devices : List Nat
  qfOf : Nat → List VkQueueFamilyProperties
  deviceCreateOk : Bool

/-- `void createInstance()`: throws when validation layers are requested but
unsupported, or when `vkCreateInstance` does not return `VK_SUCCESS`. -/
def createInstance (w : World) : Except String Unit :=
  if enableValidationLayers
      && !(checkValidationLayerSupport validationLayers w.availableLayers) then
    .error "validation layers requested, but not available!"
  else if !w.instanceCreateOk then
    .error "failed to create instance!"
  else
    .ok ()

/-- `void setupDebugCallback()`: returns early when validation is disabled, throws
when `CreateDebugReportCallbackEXT` does not return `VK_SUCCESS`. -/
def setupDebugCallback (w : World) : Except String Unit :=
  if !enableValidationLayers then .ok ()
  else if !w.debugCallbackCreateOk then
    .error "failed to set up debug callback!"
  else
    .ok ()

/-- `void createLogicalDevice()`: throws when `vkCreateDevice` does not return
`VK_SUCCESS`. -/
def createLogicalDevice (w : World) (physicalDevice : Nat) : Except String Unit :=
  if !w.deviceCreateOk then .error "failed to create logical device!" else .ok ()

/-- `void initVulkan()` (`src/unnamed/part_000`): `createInstance();
setupDebugCallback(); pickPhysicalDevice(); createLogicalDevice();` — the first
thrown exception aborts the rest. -/
def initVulkan (w : World) : Except String Unit := do
  createInstance w
  setupDebugCallback w
  let physicalDevice ← pickPhysicalDevice w.qfOf w.devices
  createLogicalDevice w physicalDevice

/-- `int main()`: runs the app inside `try`/`catch (std::runtime_error)`; on a caught
exception writes its message to `stderr` and returns `EXIT_FAILURE`, otherwise
returns `EXIT_SUCCESS`. Modelled as the pair (exit status, reported message). -/
def mainRun (w : World) : Nat × Option String :=
  match initVulkan w with
  | .ok _ => (EXIT_SUCCESS, none)
  | .error e => (EXIT_FAILURE, some e)

/-! ## Teardown order of the scoped-handle members

`HelloTriangleApplication` in `src/unnamed/part_000` declares three `VDeleter`
members, in this order: `instance` (line 181), `callback` (line 185, release
context-qualified by `instance`), `device` (line 195). C++ destroys non-static
data members in reverse declaration order; `teardownSequence` embeds that
language rule. -/

/-- The `VDeleter` members of `HelloTriangleApplication`. -/
inductive HandleMember where
  | instanceH
  | callbackH
  | deviceH
deriving DecidableEq

/-- The declaration order of the `VDeleter` members
(`src/unnamed/part_000`, lines 181-195). -/
def memberDeclarationOrder : List HandleMember :=
  [.instanceH, .callbackH, .deviceH]

/-- The order in which the members' destructors (hence releases) run at teardown:
C++ destroys members in reverse declaration order. -/
def teardownSequence (declarationOrder : List HandleMember) : List HandleMember :=
  declarationOrder.reverse

/-! ## Lemmas about the layer-support check -/

theorem layerFoundIn_eq_decide (layerName : String) (availableLayers : List String) :
    layerFoundIn layerName availableLayers = decide (layerName ∈ availableLayers) := by
  induction availableLayers with
  | nil => simp [layerFoundIn]
  | cons p rest ih =>
    by_cases h : layerName = p
    · simp [layerFoundIn, h]
    · simp [layerFoundIn, h, ih]

theorem checkValidationLayerSupport_eq_decide (required availableLayers : List String) :
    checkValidationLayerSupport required availableLayers
      = decide (∀ name ∈ required, name ∈ availableLayers) := by
  induction required with
  | nil => simp [checkValidationLayerSupport]
  | cons layerName rest ih =>
    by_cases h : layerName ∈ availableLayers
    · simp [checkValidationLayerSupport, layerFoundIn_eq_decide, h, ih]
    · simp [checkValidationLayerSupport, layerFoundIn_eq_decide, h]

/-- Claim C5: `checkValidationLayerSupport` returns `true` iff every required layer
name appears in the available set under exact string comparison; the result is
unchanged under permutation of the available set; with required `{"A","B"}` and
available `{"A"}` it returns `false`, and with available `{"B","A"}` it returns
`true`. -/
theorem checkValidationLayerSupport_spec
    (required availableLayers availableLayers' : List String)
    (hperm : availableLayers.Perm availableLayers') :
    (checkValidationLayerSupport required availableLayers = true ↔
      ∀ name ∈ required, name ∈ availableLayers)
    ∧ checkValidationLayerSupport required availableLayers
        = checkValidationLayerSupport required availableLayers'
    ∧ checkValidationLayerSupport ["A", "B"] ["A"] = false
    ∧ checkValidationLayerSupport ["A", "B"] ["B", "A"] = true := by
  refine ⟨?_, ?_, by decide, by decide⟩
  · rw [checkValidationLayerSupport_eq_decide]
    exact decide_eq_true_iff
  · rw [checkValidationLayerSupport_eq_decide, checkValidationLayerSupport_eq_decide]
    rw [decide_eq_decide]
    constructor
    · intro h name hn
      exact hperm.mem_iff.mp (h name hn)
    · intro h name hn
      exact hperm.mem_iff.mpr (h name hn)

/-- Witness for C5 at required `["A","B"]`, available `["B","A"]` and its
permutation `["A","B"]`. -/
theorem checkValidationLayerSupport_spec_witness :
    List.Perm ["B", "A"] ["A", "B"]
    ∧ (checkValidationLayerSupport ["A", "B"] ["B", "A"] = true ↔
        ∀ name ∈ ["A", "B"], name ∈ ["B", "A"])
    ∧ checkValidationLayerSupport ["A", "B"] ["B", "A"]
        = checkValidationLayerSupport ["A", "B"] ["A", "B"] := by
  have h := checkValidationLayerSupport_spec ["A", "B"] ["B", "A"] ["A", "B"]
    (by decide)
  exact ⟨by decide, h.1, h.2.1⟩

/-- Claim C9: with an empty required layer list, `checkValidationLayerSupport`
returns `true` regardless of the available set (the outer loop runs zero
iterations and the function falls through to `true`). -/
theorem checkValidationLayerSupport_empty_required (availableLayers : List String) :
    checkValidationLayerSupport [] availableLayers = true := rfl

/-- Claim C10: `debugCallback` returns `VK_FALSE` for every combination of its
inputs (it only writes `"validation layer: " ++ msg` to `stderr`). -/
theorem debugCallback_returns_false (flags objType obj location code : Nat)
    (layerPref msg : String) (userData : Nat) :
    (debugCallback flags objType obj location code layerPref msg userData).2 = VK_FALSE
    ∧ (debugCallback flags objType obj location code layerPref msg userData).1
        = "validation layer: " ++ msg := ⟨rfl, rfl⟩

/-- Claim C6: `isDeviceSuitable` is exactly the completeness predicate of
`findQueueFamilies`: true iff the recorded queue-family index is `≥ 0` (not the
`-1` sentinel); no other device property enters the definition. -/
theorem isDeviceSuitable_spec (queueFamilies : List VkQueueFamilyProperties) :
    isDeviceSuitable queueFamilies = (findQueueFamilies queueFamilies).isComplete
    ∧ (isDeviceSuitable queueFamilies = true ↔
        (findQueueFamilies queueFamilies).graphicsFamily ≥ 0) := by
  refine ⟨rfl, ?_⟩
  simp [isDeviceSuitable, QueueFamilyIndices.isComplete]

/-! ## Lemmas about the queue-family scan -/

theorem isComplete_start : QueueFamilyIndices.isComplete ⟨-1⟩ = false := by decide

theorem findQueueFamiliesLoop_none (fams : List VkQueueFamilyProperties) (i : Int)
    (h : ∀ qf ∈ fams, ¬ queueFamilyQualifies qf) :
    findQueueFamiliesLoop ⟨-1⟩ i fams = ⟨-1⟩ := by
  induction fams generalizing i with
  | nil => rfl
  | cons qf rest ih =>
    have h0 : ¬ queueFamilyQualifies qf := h qf (List.mem_cons_self _ _)
    simp only [findQueueFamiliesLoop, if_neg h0, isComplete_start, Bool.false_eq_true,
      if_false]
    exact ih (i + 1) fun x hx => h x (List.mem_cons_of_mem _ hx)

theorem findQueueFamiliesLoop_first (fams : List VkQueueFamilyProperties) (i : Int)
    (hi : 0 ≤ i) (k : Nat) (hk : k < fams.length)
    (hq : queueFamilyQualifies (fams.get ⟨k, hk⟩))
    (hmin : ∀ qf ∈ fams.take k, ¬ queueFamilyQualifies qf) :
    findQueueFamiliesLoop ⟨-1⟩ i fams = ⟨i + k⟩ := by
  induction fams generalizing i k with
  | nil => exact absurd hk (Nat.not_lt_zero k)
  | cons qf rest ih =>
    cases k with
    | zero =>
      have hq0 : queueFamilyQualifies qf := hq
      have hc : QueueFamilyIndices.isComplete ⟨i⟩ = true := by
        simpa [QueueFamilyIndices.isComplete] using hi
      simp only [findQueueFamiliesLoop, if_pos hq0, hc, if_true]
      simp
    | succ k' =>
      have h0 : ¬ queueFamilyQualifies qf := hmin qf (by simp)
      have hk' : k' < rest.length := Nat.lt_of_succ_lt_succ hk
      have hq' : queueFamilyQualifies (rest.get ⟨k', hk'⟩) := hq
      have hmin' : ∀ x ∈ rest.take k', ¬ queueFamilyQualifies x := by
        intro x hx
        exact hmin x (by simp [hx])
      simp only [findQueueFamiliesLoop, if_neg h0, isComplete_start, Bool.false_eq_true,
        if_false]
      rw [ih (i + 1) (by omega) k' hk' hq' hmin']
      congr 1
      push_cast
      ring

/-- Claim C2: `findQueueFamilies` returns the lowest index whose family has a
non-zero queue count and the graphics flag set (first match in list order);
`-1` when no family qualifies (including the empty list); and on
`[{count:2, flags:COMPUTE}, {count:1, flags:GRAPHICS}]` it returns index `1`. -/
theorem findQueueFamilies_spec (fams : List VkQueueFamilyProperties)
    (k : Nat) (hk : k < fams.length)
    (hq : queueFamilyQualifies (fams.get ⟨k, hk⟩))
    (hmin : ∀ qf ∈ fams.take k, ¬ queueFamilyQualifies qf) :
    (findQueueFamilies fams).graphicsFamily = (k : Int)
    ∧ (∀ gams : List VkQueueFamilyProperties,
        (∀ qf ∈ gams, ¬ queueFamilyQualifies qf) → findQueueFamilies gams = ⟨-1⟩)
    ∧ findQueueFamilies [⟨2, VK_QUEUE_COMPUTE_BIT⟩, ⟨1, VK_QUEUE_GRAPHICS_BIT⟩]
        = ⟨1⟩ := by
  refine ⟨?_, fun gams h => findQueueFamiliesLoop_none gams 0 h, by decide⟩
  have h := findQueueFamiliesLoop_first fams 0 le_rfl k hk hq hmin
  rw [findQueueFamilies]
  rw [show ({} : QueueFamilyIndices) = ⟨-1⟩ from rfl, h]
  simp

/-- Witness for C2 at the family list
`[{count:2, flags:COMPUTE}, {count:1, flags:GRAPHICS}]`, first qualifying
index `1`. -/
theorem findQueueFamilies_spec_witness :
    queueFamilyQualifies
      (([⟨2, VK_QUEUE_COMPUTE_BIT⟩, ⟨1, VK_QUEUE_GRAPHICS_BIT⟩] :
        List VkQueueFamilyProperties).get ⟨1, by decide⟩)
    ∧ (findQueueFamilies [⟨2, VK_QUEUE_COMPUTE_BIT⟩, ⟨1, VK_QUEUE_GRAPHICS_BIT⟩]
        ).graphicsFamily = (1 : Int) :=
  ⟨by decide,
    (findQueueFamilies_spec [⟨2, VK_QUEUE_COMPUTE_BIT⟩, ⟨1, VK_QUEUE_GRAPHICS_BIT⟩]
      1 (by decide) (by decide) (by decide)).1⟩

/-! ## Lemmas about the physical-device scan -/

theorem pickScan_none (qfOf : Nat → List VkQueueFamilyProperties)
    (devices : List Nat) (pd : Nat)
    (h : ∀ d ∈ devices, isDeviceSuitable (qfOf d) = false) :
    pickScan qfOf devices pd = (pd, devices) := by
  induction devices with
  | nil => rfl
  | cons d rest ih =>
    have hd := h d (List.mem_cons_self _ _)
    simp [pickScan, hd, ih fun x hx => h x (List.mem_cons_of_mem _ hx)]

theorem pickScan_found (qfOf : Nat → List VkQueueFamilyProperties)
    (l1 : List Nat) (d : Nat) (l2 : List Nat) (pd : Nat)
    (h1 : ∀ x ∈ l1, isDeviceSuitable (qfOf x) = false)
    (hd : isDeviceSuitable (qfOf d) = true) :
    pickScan qfOf (l1 ++ d :: l2) pd = (d, l1 ++ [d]) := by
  induction l1 with
  | nil => simp [pickScan, hd]
  | cons x rest ih =>
    have hx := h1 x (List.mem_cons_self _ _)
    simp [pickScan, hx, ih fun y hy => h1 y (List.mem_cons_of_mem _ hy)]

/-- Claim C3: `pickPhysicalDevice` raises the "no devices" error on an empty
enumeration; otherwise it scans in order, selects the first suitable device and
evaluates no device after it, and raises the "no suitable device" error when
none is accepted; on `[deviceA(unsuitable), deviceB(suitable)]` it selects
`deviceB`. -/
theorem pickPhysicalDevice_spec (qfOf : Nat → List VkQueueFamilyProperties)
    (devices l1 l2 : List Nat) (d : Nat) :
    pickPhysicalDevice qfOf []
        = Except.error "failed to find GPUs with Vilkan support!"
    ∧ (devices ≠ [] → (∀ x ∈ devices, isDeviceSuitable (qfOf x) = false) →
        pickPhysicalDevice qfOf devices
            = Except.error "no Vulkan supporting GPU can do what you need!"
          ∧ pickEvaluated qfOf devices = devices)
    ∧ (devices = l1 ++ d :: l2 → d ≠ VK_NULL_HANDLE →
        (∀ x ∈ l1, isDeviceSuitable (qfOf x) = false) →
        isDeviceSuitable (qfOf d) = true →
        pickPhysicalDevice qfOf devices = Except.ok d
          ∧ pickEvaluated qfOf devices = l1 ++ [d])
    ∧ pickPhysicalDevice
        (fun n => if n = 1 then [⟨2, VK_QUEUE_COMPUTE_BIT⟩]
                  else [⟨1, VK_QUEUE_GRAPHICS_BIT⟩]) [1, 2]
        = Except.ok 2
    ∧ pickEvaluated
        (fun n => if n = 1 then [⟨2, VK_QUEUE_COMPUTE_BIT⟩]
                  else [⟨1, VK_QUEUE_GRAPHICS_BIT⟩]) [1, 2, 3]
        = [1, 2] := by
  refine ⟨rfl, ?_, ?_, rfl, rfl⟩
  · intro hne h
    have hlen : ¬ devices.length = 0 := by
      simpa [List.length_eq_zero] using hne
    have hs := pickScan_none qfOf devices VK_NULL_HANDLE h
    simp only [VK_NULL_HANDLE] at hs
    constructor
    · simp [pickPhysicalDevice, hlen, hs, VK_NULL_HANDLE]
    · simp [pickEvaluated, hlen, hs, VK_NULL_HANDLE]
  · intro hdev hd0 h1 hd
    subst hdev
    have hlen : ¬ (l1 ++ d :: l2).length = 0 := by simp
    have hs := pickScan_found qfOf l1 d l2 VK_NULL_HANDLE h1 hd
    constructor
    · simp [pickPhysicalDevice, hlen, hs, hd0]
    · simp [pickEvaluated, hlen, hs]

/-- Witness for C3 at devices `[1, 2]` (device `1` unsuitable, device `2`
suitable) with split `[1] ++ 2 :: []`. -/
theorem pickPhysicalDevice_spec_witness :
    ([1, 2] : List Nat) ≠ []
    ∧ ([1, 2] : List Nat) = [1] ++ 2 :: []
    ∧ (2 : Nat) ≠ VK_NULL_HANDLE
    ∧ (pickPhysicalDevice
        (fun n => if n = 1 then [⟨2, VK_QUEUE_COMPUTE_BIT⟩]
                  else [⟨1, VK_QUEUE_GRAPHICS_BIT⟩]) [1, 2]
        = Except.ok 2
      ∧ pickEvaluated
        (fun n => if n = 1 then [⟨2, VK_QUEUE_COMPUTE_BIT⟩]
                  else [⟨1, VK_QUEUE_GRAPHICS_BIT⟩]) [1, 2]
        = [1] ++ [2]) :=
  ⟨by decide, by decide, by decide,
    (pickPhysicalDevice_spec
      (fun n => if n = 1 then [⟨2, VK_QUEUE_COMPUTE_BIT⟩]
                else [⟨1, VK_QUEUE_GRAPHICS_BIT⟩])
      [1, 2] [1] [] 2).2.2.1 rfl (by decide) (by decide) (by decide)⟩

/-! ## Lemmas about the scoped-handle release traces -/

/-- Occurrence count of a value in a release trace. -/
def countVal (v : Nat) : List Nat → Nat
  | [] => 0
  | x :: rest => (if x = v then 1 else 0) + countVal v rest

theorem countVal_append (v : Nat) (t1 t2 : List Nat) :
    countVal v (t1 ++ t2) = countVal v t1 + countVal v t2 := by
  induction t1 with
  | nil => simp [countVal]
  | cons x rest ih => simp [countVal, ih]; omega

theorem step_no_sentinel (s : Nat) (op : VDeleter.VOp) :
    VK_NULL_HANDLE ∉ (VDeleter.step s op).2 := by
  cases op with
  | assign v =>
    simp only [VDeleter.step, VDeleter.assign, VDeleter.cleanup, VK_NULL_HANDLE]
    split_ifs with h1 h2 <;> simp
    omega
  | replaceOp =>
    simp only [VDeleter.step, VDeleter.replaceFn, VDeleter.cleanup, VK_NULL_HANDLE]
    split_ifs with h <;> simp
    omega
  | destroyOp =>
    simp only [VDeleter.step, VDeleter.destroy, VDeleter.cleanup, VK_NULL_HANDLE]
    split_ifs with h <;> simp
    omega

theorem runOps_no_sentinel (s : Nat) (ops : List VDeleter.VOp) :
    VK_NULL_HANDLE ∉ (VDeleter.runOps s ops).2 := by
  induction ops generalizing s with
  | nil => simp [VDeleter.runOps]
  | cons op rest ih =>
    simp only [VDeleter.runOps, List.mem_append, not_or]
    exact ⟨step_no_sentinel s op, ih (VDeleter.step s op).1⟩

theorem cleanup_count_le (v s : Nat) :
    countVal v (VDeleter.cleanup s).2 ≤ (if s = v then 1 else 0) := by
  simp only [VDeleter.cleanup, VK_NULL_HANDLE]
  by_cases h1 : s ≠ 0 <;> by_cases h2 : s = v <;> simp_all [countVal]

theorem step_count_le (v s : Nat) (op : VDeleter.VOp) :
    countVal v (VDeleter.step s op).2 ≤ (if s = v then 1 else 0) := by
  cases op with
  | assign w =>
    by_cases hws : w ≠ s
    · have h : (VDeleter.step s (VDeleter.VOp.assign w)).2 = (VDeleter.cleanup s).2 := by
        simp [VDeleter.step, VDeleter.assign, hws]
      rw [h]
      exact cleanup_count_le v s
    · have h : (VDeleter.step s (VDeleter.VOp.assign w)).2 = [] := by
        simp [VDeleter.step, VDeleter.assign, hws]
      rw [h]
      simp [countVal]
  | replaceOp => exact cleanup_count_le v s
  | destroyOp => exact cleanup_count_le v s

theorem runOps_count_le (v : Nat) (hv : v ≠ VK_NULL_HANDLE) (s : Nat)
    (ops : List VDeleter.VOp) :
    countVal v (VDeleter.runOps s ops).2
      ≤ (if s = v then 1 else 0) + VDeleter.countAssign v ops := by
  induction ops generalizing s with
  | nil => simp [VDeleter.runOps, countVal]
  | cons op rest ih =>
    simp only [VDeleter.runOps, countVal_append]
    have hhead := step_count_le v s op
    cases op with
    | assign w =>
      by_cases hws : w ≠ s
      · have hone : (VDeleter.step s (VDeleter.VOp.assign w)).1 = w := by
          simp [VDeleter.step, VDeleter.assign, hws]
        rw [hone]
        have htail := ih w
        simp only [VDeleter.countAssign]
        omega
      · have hws' : w = s := not_not.mp hws
        subst hws'
        have hone : (VDeleter.step w (VDeleter.VOp.assign w)).1 = w := by
          simp [VDeleter.step, VDeleter.assign]
        rw [hone]
        have htail := ih w
        simp only [VDeleter.countAssign]
        omega
    | replaceOp =>
      have hone : (VDeleter.step s VDeleter.VOp.replaceOp).1 = VK_NULL_HANDLE := rfl
      rw [hone]
      have htail := ih VK_NULL_HANDLE
      have h0 : ¬ (VK_NULL_HANDLE = v) := fun h => hv h.symm
      rw [if_neg h0] at htail
      simp only [VDeleter.countAssign]
      omega
    | destroyOp =>
      have hone : (VDeleter.step s VDeleter.VOp.destroyOp).1 = VK_NULL_HANDLE := rfl
      rw [hone]
      have htail := ih VK_NULL_HANDLE
      have h0 : ¬ (VK_NULL_HANDLE = v) := fun h => hv h.symm
      rw [if_neg h0] at htail
      simp only [VDeleter.countAssign]
      omega

/-- Claim C1: from a fresh handle, `assign v` then destruction invokes the bound
deleter exactly once, with value `v`; `assign v` twice in a row still releases
only once; over any operation sequence, the deleter is never invoked on
`VK_NULL_HANDLE`, and it is invoked at most once per hold of a value `v`
(initial hold plus one per `assign v`). -/
theorem scopedHandle_release_spec (v : Nat) (hv : v ≠ VK_NULL_HANDLE)
    (s : Nat) (ops : List VDeleter.VOp) :
    VDeleter.runOps VK_NULL_HANDLE [.assign v, .destroyOp] = (VK_NULL_HANDLE, [v])
    ∧ VDeleter.runOps VK_NULL_HANDLE [.assign v, .assign v, .destroyOp]
        = (VK_NULL_HANDLE, [v])
    ∧ VK_NULL_HANDLE ∉ (VDeleter.runOps s ops).2
    ∧ countVal v (VDeleter.runOps s ops).2
        ≤ (if s = v then 1 else 0) + VDeleter.countAssign v ops := by
  have hv0 : ¬ (v = 0) := hv
  refine ⟨?_, ?_, runOps_no_sentinel s ops, runOps_count_le v hv s ops⟩
  · simp [VDeleter.runOps, VDeleter.step, VDeleter.assign, VDeleter.destroy,
      VDeleter.cleanup, VK_NULL_HANDLE, hv0]
  · simp [VDeleter.runOps, VDeleter.step, VDeleter.assign, VDeleter.destroy,
      VDeleter.cleanup, VK_NULL_HANDLE, hv0]

/-- Witness for C1 at `v = 5`, initial value `3`, operation sequence
`[assign 5, replace, assign 7, destroy]`. -/
theorem scopedHandle_release_spec_witness :
    (5 : Nat) ≠ VK_NULL_HANDLE
    ∧ (VDeleter.runOps VK_NULL_HANDLE [.assign 5, .destroyOp]
          = (VK_NULL_HANDLE, [5])
      ∧ VDeleter.runOps VK_NULL_HANDLE [.assign 5, .assign 5, .destroyOp]
          = (VK_NULL_HANDLE, [5])
      ∧ VK_NULL_HANDLE ∉
          (VDeleter.runOps 3 [.assign 5, .replaceOp, .assign 7, .destroyOp]).2
      ∧ countVal 5
            (VDeleter.runOps 3 [.assign 5, .replaceOp, .assign 7, .destroyOp]).2
          ≤ (if 3 = 5 then 1 else 0)
            + VDeleter.countAssign 5 [.assign 5, .replaceOp, .assign 7, .destroyOp]) :=
  ⟨by decide,
    scopedHandle_release_spec 5 (by decide) 3
      [.assign 5, .replaceOp, .assign 7, .destroyOp]⟩

/-- Counterexample to claim C4 as stated: `replace()` on a handle holding the
empty sentinel does not invoke the bound deleter at all (the deleter-invocation
trace is empty, not `[VK_NULL_HANDLE]`). -/
theorem replaceFn_empty_counterexample :
    (VDeleter.replaceFn VK_NULL_HANDLE).2 = []
    ∧ ¬ ((VDeleter.replaceFn VK_NULL_HANDLE).2 = [VK_NULL_HANDLE]) := by
  constructor
  · rfl
  · intro h
    simp [VDeleter.replaceFn, VDeleter.cleanup] at h

/-- Claim C4 (amended): `replace()` invokes the bound deleter on the prior held
value exactly when that value is not the empty sentinel (a no-op when it is
empty); after the call the handle is reset to empty, so the returned slot holds
the empty value at the instant of return. -/
theorem replaceFn_spec (object : Nat) :
    (VDeleter.replaceFn object).2
        = (if object ≠ VK_NULL_HANDLE then [object] else [])
    ∧ (VDeleter.replaceFn object).1 = VK_NULL_HANDLE := ⟨rfl, rfl⟩

/-- Claim C7: teardown releases the scoped-handle members in reverse declaration
order: any member declared after another is released before it; concretely the
app's members `[instance, callback, device]` are released as
`[device, callback, instance]`, so `callback` (whose release is
context-qualified by `instance`) is released while `instance` is still alive. -/
theorem teardown_order_spec (l1 l2 l3 : List HandleMember) (h0 h1 : HandleMember)
    (decls : List HandleMember) (hdecl : decls = l1 ++ h0 :: (l2 ++ h1 :: l3)) :
    teardownSequence decls = l3.reverse ++ h1 :: (l2.reverse ++ h0 :: l1.reverse)
    ∧ teardownSequence memberDeclarationOrder
        = [HandleMember.deviceH, HandleMember.callbackH, HandleMember.instanceH]
    ∧ (teardownSequence memberDeclarationOrder).indexOf HandleMember.callbackH
        < (teardownSequence memberDeclarationOrder).indexOf HandleMember.instanceH := by
  subst hdecl
  refine ⟨?_, by decide, by decide⟩
  simp [teardownSequence, List.reverse_append]

/-- Witness for C7 at the app's member list with `H0 = instance`,
`H1 = callback`. -/
theorem teardown_order_spec_witness :
    memberDeclarationOrder
        = [] ++ HandleMember.instanceH :: ([] ++ HandleMember.callbackH :: [HandleMember.deviceH])
    ∧ teardownSequence memberDeclarationOrder
        = [HandleMember.deviceH].reverse
            ++ HandleMember.callbackH :: (([] : List HandleMember).reverse
                ++ HandleMember.instanceH :: ([] : List HandleMember).reverse) :=
  ⟨by decide,
    (teardown_order_spec [] [] [HandleMember.deviceH] HandleMember.instanceH
      HandleMember.callbackH memberDeclarationOrder (by decide)).1⟩

/-- Claim C8: each fatal condition (missing validation layer, instance or
debug-callback creation failure, empty device enumeration, no suitable device,
logical-device creation failure) turns into an error at its point of detection
that aborts the remaining stages; `main` reports exactly that message and exits
with the non-zero status `EXIT_FAILURE`, retaining no partial result. -/
theorem exceptBind_error {ε α β : Type} (e : ε) (f : α → Except ε β) :
    (Except.error e >>= f) = Except.error e := rfl

theorem exceptBind_ok {ε α β : Type} (a : α) (f : α → Except ε β) :
    (Except.ok a >>= f) = f a := rfl

theorem errorPropagation_spec (w : World) (e : String) (pd : Nat) :
    (initVulkan w = .error e →
        mainRun w = (EXIT_FAILURE, some e) ∧ EXIT_FAILURE ≠ 0)
    ∧ (initVulkan w = .ok () → mainRun w = (EXIT_SUCCESS, none))
    ∧ (checkValidationLayerSupport validationLayers w.availableLayers = false →
        initVulkan w = .error "validation layers requested, but not available!")
    ∧ (checkValidationLayerSupport validationLayers w.availableLayers = true →
        w.instanceCreateOk = false →
        initVulkan w = .error "failed to create instance!")
    ∧ (createInstance w = .ok () → w.debugCallbackCreateOk = false →
        initVulkan w = .error "failed to set up debug callback!")
    ∧ (createInstance w = .ok () → setupDebugCallback w = .ok () →
        w.devices = [] →
        initVulkan w = .error "failed to find GPUs with Vilkan support!")
    ∧ (createInstance w = .ok () → setupDebugCallback w = .ok () →
        pickPhysicalDevice w.qfOf w.devices = .error e →
        initVulkan w = .error e)
    ∧ (createInstance w = .ok () → setupDebugCallback w = .ok () →
        pickPhysicalDevice w.qfOf w.devices = .ok pd → w.deviceCreateOk = false →
        initVulkan w = .error "failed to create logical device!") := by
  refine ⟨?_, ?_, ?_, ?_, ?_, ?_, ?_, ?_⟩
  · intro h
    exact ⟨by simp [mainRun, h, EXIT_FAILURE], by decide⟩
  · intro h
    simp [mainRun, h, EXIT_SUCCESS]
  · intro h
    have hci : createInstance w
        = .error "validation layers requested, but not available!" := by
      simp [createInstance, enableValidationLayers, h]
    simp [initVulkan, hci, exceptBind_error, exceptBind_ok]
  · intro h h2
    have hci : createInstance w = .error "failed to create instance!" := by
      simp [createInstance, enableValidationLayers, h, h2]
    simp [initVulkan, hci, exceptBind_error, exceptBind_ok]
  · intro h hdb
    have hsd : setupDebugCallback w = .error "failed to set up debug callback!" := by
      simp [setupDebugCallback, enableValidationLayers, hdb]
    simp [initVulkan, h, hsd, exceptBind_error, exceptBind_ok]
  · intro h hsd hdev
    have hpk : pickPhysicalDevice w.qfOf w.devices
        = .error "failed to find GPUs with Vilkan support!" := by
      rw [hdev]
      rfl
    simp [initVulkan, h, hsd, hpk, exceptBind_error, exceptBind_ok]
  · intro h hsd hpk
    simp [initVulkan, h, hsd, hpk, exceptBind_error, exceptBind_ok]
  · intro h hsd hpk hdc
    have hcl : createLogicalDevice w pd = .error "failed to create logical device!" := by
      simp [createLogicalDevice, hdc]
    simp [initVulkan, h, hsd, hpk, hcl, exceptBind_error, exceptBind_ok]

/-- Witness for C8 at a world with a supported validation layer, successful
creations, and an empty device enumeration. -/
theorem errorPropagation_spec_witness :
    initVulkan ⟨["VK_LAYER_LUNARG_standard_validation"], true, true, [],
        fun _ => [], true⟩
      = .error "failed to find GPUs with Vilkan support!"
    ∧ (mainRun ⟨["VK_LAYER_LUNARG_standard_validation"], true, true, [],
          fun _ => [], true⟩
        = (EXIT_FAILURE, some "failed to find GPUs with Vilkan support!")
      ∧ EXIT_FAILURE ≠ 0) :=
  ⟨rfl,
    (errorPropagation_spec
      ⟨["VK_LAYER_LUNARG_standard_validation"], true, true, [], fun _ => [], true⟩
      "failed to find GPUs with Vilkan support!" 0).1 rfl⟩
